import Mathlib

/-!
# Verification of the sheeprl latent-dynamics and planning core

Shallow embedding of the Return Estimator, the cumulative discount weights,
the Dynamics Stepper, the distribution utilities, the Imagination Roller,
the entropy fallback, the model-construction validation, the player state
reset and the is-first override, together with proofs of their specified
properties.  Real scalars are modelled by the rationals; tensors indexed by
time or by batch element are modelled by lists or by functions from indices.
-/

namespace SheepRL

/-! ## Return Estimator (lambda returns)

`compute_lambda_values` is called in `sheeprl/algos/dreamer_v2/dreamer_v2.py`
(lines 292-299) and in `sheeprl/algos/p2e/p2e.py` (lines 247-254).  Its body
lives in `sheeprl/algos/dreamer_v2/utils.py` and
`sheeprl/algos/dreamer_v1/utils.py`, which are not part of the sources at
hand, so the function is modelled from the spec. -/

/-- Modelled from the spec: the Return Estimator `compute_lambda_values`
(bodies in `sheeprl.algos.dreamer_v2.utils` and `sheeprl.algos.dreamer_v1.utils`,
absent from the sources).  Backward recursion of spec section 4.6:
`lambda_value_H = value_H` (the externally supplied bootstrap) and, for
`t = H-1` down to `0`,
`lambda_value_t = reward_t + continuation_t * ((1-lambda) * value_(t+1) + lambda * lambda_value_(t+1))`,
where `value_H` is the bootstrap; the result is the list
`[lambda_value_0, ..., lambda_value_(H-1)]`. -/
def compute_lambda_values (lmbda bootstrap : ℚ) : List ℚ → List ℚ → List ℚ → List ℚ
  | r :: rs, _v :: vs, c :: cs =>
    let tail := compute_lambda_values lmbda bootstrap rs vs cs
    let nextValue := match vs with
      | [] => bootstrap
      | v2 :: _ => v2
    let nextLambdaValue := match tail with
      | [] => bootstrap
      | x :: _ => x
    (r + c * ((1 - lmbda) * nextValue + lmbda * nextLambdaValue)) :: tail
  | _, _, _ => []

theorem compute_lambda_values_length (lmbda bootstrap : ℚ) :
    ∀ (rs vs cs : List ℚ), rs.length = vs.length → rs.length = cs.length →
      (compute_lambda_values lmbda bootstrap rs vs cs).length = rs.length := by
  intro rs
  induction rs with
  | nil => intro vs cs _ _; rfl
  | cons r rs ih =>
    intro vs cs hv hc
    cases vs with
    | nil => simp at hv
    | cons v vs =>
      cases cs with
      | nil => simp at hc
      | cons c cs =>
        simp only [compute_lambda_values, List.length_cons]
        simp only [List.length_cons, Nat.add_right_cancel_iff] at hv hc
        rw [ih vs cs hv hc]

theorem compute_lambda_values_getD (lmbda bootstrap : ℚ) :
    ∀ (rs : List ℚ) (vs cs : List ℚ) (t : ℕ), rs.length = vs.length →
      rs.length = cs.length → t + 1 < rs.length →
      (compute_lambda_values lmbda bootstrap rs vs cs).getD t 0 =
        rs.getD t 0 + cs.getD t 0 *
          ((1 - lmbda) * vs.getD (t + 1) 0 +
            lmbda * (compute_lambda_values lmbda bootstrap rs vs cs).getD (t + 1) 0) := by
  intro rs
  induction rs with
  | nil => intro vs cs t _ _ ht; simp at ht
  | cons r rs ih =>
    intro vs cs t hv hc ht
    cases vs with
    | nil => simp at hv
    | cons v vs =>
      cases cs with
      | nil => simp at hc
      | cons c cs =>
        simp only [List.length_cons, Nat.add_right_cancel_iff] at hv hc
        simp only [List.length_cons, Nat.add_lt_add_iff_right] at ht
        cases t with
        | zero =>
          cases rs with
          | nil => simp at ht
          | cons r2 rs2 =>
            cases vs with
            | nil => simp at hv
            | cons v2 vs2 =>
              cases cs with
              | nil => simp at hc
              | cons c2 cs2 =>
                simp [compute_lambda_values]
        | succ t =>
          have hrec := ih vs cs t hv hc ht
          simpa [compute_lambda_values] using hrec

theorem compute_lambda_values_last (lmbda bootstrap : ℚ) :
    ∀ (rs : List ℚ) (vs cs : List ℚ), rs.length = vs.length →
      rs.length = cs.length → 0 < rs.length →
      (compute_lambda_values lmbda bootstrap rs vs cs).getD (rs.length - 1) 0 =
        rs.getD (rs.length - 1) 0 + cs.getD (rs.length - 1) 0 *
          ((1 - lmbda) * bootstrap + lmbda * bootstrap) := by
  intro rs
  induction rs with
  | nil => intro vs cs _ _ h; simp at h
  | cons r rs ih =>
    intro vs cs hv hc _
    cases vs with
    | nil => simp at hv
    | cons v vs =>
      cases cs with
      | nil => simp at hc
      | cons c cs =>
        simp only [List.length_cons, Nat.add_right_cancel_iff] at hv hc
        cases rs with
        | nil =>
          cases vs with
          | nil =>
            cases cs with
            | nil => simp [compute_lambda_values]
            | cons c2 cs2 => simp at hc
          | cons v2 vs2 => simp at hv
        | cons r2 rs2 =>
          have hpos : 0 < (r2 :: rs2).length := by simp
          have hlen : (r2 :: rs2 : List ℚ).length - 1 + 1 = (r2 :: rs2 : List ℚ).length :=
            Nat.succ_pred_eq_of_pos hpos
          have hrec := ih vs cs hv hc hpos
          have hidx : (r :: r2 :: rs2 : List ℚ).length - 1 =
              ((r2 :: rs2 : List ℚ).length - 1) + 1 := by
            simp only [List.length_cons]
            omega
          rw [hidx]
          cases vs with
          | nil => simp at hv
          | cons v2 vs2 =>
            cases cs with
            | nil => simp at hc
            | cons c2 cs2 =>
              simpa [compute_lambda_values] using hrec

/-- C1: the lambda-return computation is the backward recursion
`lambda_value_t = reward_t + continuation_t * ((1-lambda) * value_(t+1) + lambda * lambda_value_(t+1))`
with bootstrap `lambda_value_H = value_H`; on `rewards = [1,1,1]`,
`values = [0,0,0]`, bootstrap `5` and `continuation = [1,1,1]` it returns
`[8, 7, 6]` for `lambda = 1` and `[1, 1, 6]` for `lambda = 0`. -/
theorem lambda_return_backward_recursion
    (lmbda bootstrap : ℚ) (rs vs cs : List ℚ)
    (hv : rs.length = vs.length) (hc : rs.length = cs.length) :
    ((compute_lambda_values lmbda bootstrap rs vs cs).length = rs.length) ∧
    (∀ t, t + 1 < rs.length →
      (compute_lambda_values lmbda bootstrap rs vs cs).getD t 0 =
        rs.getD t 0 + cs.getD t 0 *
          ((1 - lmbda) * vs.getD (t + 1) 0 +
            lmbda * (compute_lambda_values lmbda bootstrap rs vs cs).getD (t + 1) 0)) ∧
    (0 < rs.length →
      (compute_lambda_values lmbda bootstrap rs vs cs).getD (rs.length - 1) 0 =
        rs.getD (rs.length - 1) 0 + cs.getD (rs.length - 1) 0 *
          ((1 - lmbda) * bootstrap + lmbda * bootstrap)) ∧
    (compute_lambda_values 1 5 [1, 1, 1] [0, 0, 0] [1, 1, 1] = [8, 7, 6]) ∧
    (compute_lambda_values 0 5 [1, 1, 1] [0, 0, 0] [1, 1, 1] = [1, 1, 6]) := by
  refine ⟨compute_lambda_values_length lmbda bootstrap rs vs cs hv hc,
    fun t ht => compute_lambda_values_getD lmbda bootstrap rs vs cs t hv hc ht,
    fun h => compute_lambda_values_last lmbda bootstrap rs vs cs hv hc h, ?_, ?_⟩
  · norm_num [compute_lambda_values]
  · norm_num [compute_lambda_values]

/-- Witness for C1: the recursion theorem applied at a concrete input. -/
theorem lambda_return_backward_recursion_witness :
    ([1, 2] : List ℚ).length = ([3, 4] : List ℚ).length ∧
    ([1, 2] : List ℚ).length = ([1, 1] : List ℚ).length ∧
    (((compute_lambda_values (1/2) 6 [1, 2] [3, 4] [1, 1]).length = ([1, 2] : List ℚ).length) ∧
    (∀ t, t + 1 < ([1, 2] : List ℚ).length →
      (compute_lambda_values (1/2) 6 [1, 2] [3, 4] [1, 1]).getD t 0 =
        ([1, 2] : List ℚ).getD t 0 + ([1, 1] : List ℚ).getD t 0 *
          ((1 - 1/2) * ([3, 4] : List ℚ).getD (t + 1) 0 +
            (1/2) * (compute_lambda_values (1/2) 6 [1, 2] [3, 4] [1, 1]).getD (t + 1) 0)) ∧
    (0 < ([1, 2] : List ℚ).length →
      (compute_lambda_values (1/2) 6 [1, 2] [3, 4] [1, 1]).getD (([1, 2] : List ℚ).length - 1) 0 =
        ([1, 2] : List ℚ).getD (([1, 2] : List ℚ).length - 1) 0 +
          ([1, 1] : List ℚ).getD (([1, 2] : List ℚ).length - 1) 0 *
          ((1 - 1/2) * 6 + (1/2) * 6)) ∧
    (compute_lambda_values 1 5 [1, 1, 1] [0, 0, 0] [1, 1, 1] = [8, 7, 6]) ∧
    (compute_lambda_values 0 5 [1, 1, 1] [0, 0, 0] [1, 1, 1] = [1, 1, 6])) :=
  ⟨rfl, rfl, lambda_return_backward_recursion (1/2) 6 [1, 2] [3, 4] [1, 1] rfl rfl⟩

/-! ## Cumulative discount weights

From `sheeprl/algos/dreamer_v2/dreamer_v2.py` lines 302-303:
`discount = torch.cumprod(torch.cat((torch.ones_like(continues[:1]), continues[:-1]), 0), 0)`,
multiplied into the actor objective (line 344) and the critic regression
loss (line 361).  The same construction appears in
`sheeprl/algos/p2e/p2e.py` lines 257-312. -/

/-- Helper for `cumprod`: running products with accumulator `acc`. -/
def cumprodAux (acc : ℚ) : List ℚ → List ℚ
  | [] => []
  | x :: xs => (acc * x) :: cumprodAux (acc * x) xs

/-- `torch.cumprod` along dimension 0: entry `i` of the result is the product
of entries `0..i` of the input. -/
def cumprod (l : List ℚ) : List ℚ := cumprodAux 1 l

/-- The discount weights of `dreamer_v2.py` lines 302-303: the cumulative
product of `[1] ++ continues[:-1]` (`torch.ones_like(continues[:1])`
concatenated with `continues[:-1]`). -/
def discount_weights (continues : List ℚ) : List ℚ :=
  cumprod (((continues.take 1).map fun _ => (1 : ℚ)) ++ continues.dropLast)

/-- Mean of a list of rationals, as `torch.mean` over a vector. -/
def listMean (l : List ℚ) : ℚ := l.sum / l.length

/-- The actor loss of `dreamer_v2.py` line 344:
`policy_loss = -torch.mean(discount[:-2] * (objective + entropy))`. -/
def policy_loss (discount objective entpy : List ℚ) : ℚ :=
  -(listMean (List.zipWith (fun d x => d * x) discount.dropLast.dropLast
      (List.zipWith (fun o e => o + e) objective entpy)))

/-- The critic loss of `dreamer_v2.py` line 361:
`value_loss = -torch.mean(discount[:-1, ..., 0] * qv.log_prob(lambda_values))`. -/
def value_loss (discount logprob : List ℚ) : ℚ :=
  -(listMean (List.zipWith (fun d x => d * x) discount.dropLast logprob))

theorem cumprodAux_length (l : List ℚ) : ∀ acc : ℚ, (cumprodAux acc l).length = l.length := by
  induction l with
  | nil => intro acc; rfl
  | cons x xs ih => intro acc; simp [cumprodAux, ih]

theorem cumprodAux_getD (l : List ℚ) :
    ∀ (acc : ℚ) (t : ℕ), t < l.length →
      (cumprodAux acc l).getD t 0 = acc * (l.take (t + 1)).prod := by
  induction l with
  | nil => intro acc t ht; simp at ht
  | cons x xs ih =>
    intro acc t ht
    cases t with
    | zero => simp [cumprodAux]
    | succ t =>
      simp only [List.length_cons, Nat.add_lt_add_iff_right] at ht
      simp only [cumprodAux, List.getD_cons_succ, List.take_succ_cons, List.prod_cons]
      rw [ih (acc * x) t ht]
      ring

theorem discount_weights_length (c : List ℚ) (hne : c ≠ []) :
    (discount_weights c).length = c.length := by
  cases c with
  | nil => exact absurd rfl hne
  | cons x xs =>
    simp [discount_weights, cumprod, cumprodAux, cumprodAux_length]

theorem discount_weights_getD (c : List ℚ) (t : ℕ) (hne : c ≠ []) (ht : t < c.length) :
    (discount_weights c).getD t 0 = (c.take t).prod := by
  cases c with
  | nil => exact absurd rfl hne
  | cons x xs =>
    have hlen : ((x :: xs : List ℚ).take 1).map (fun _ => (1 : ℚ)) = [1] := by simp
    rw [discount_weights, hlen, cumprod]
    have hlt : t < ([(1 : ℚ)] ++ (x :: xs).dropLast).length := by
      simp only [List.length_append, List.length_dropLast, List.length_cons,
        List.length_nil] at ht ⊢
      omega
    rw [cumprodAux_getD _ 1 t hlt, one_mul]
    cases t with
    | zero => simp
    | succ t =>
      simp only [List.take_succ_cons, List.prod_cons, List.singleton_append]
      have hdrop : (x :: xs : List ℚ).dropLast = (x :: xs).take (xs.length) := by
        rw [List.dropLast_eq_take]
        simp
      rw [hdrop, List.take_take]
      have hmin : min (t + 1) xs.length = t + 1 := by
        simp only [List.length_cons] at ht
        omega
      rw [hmin, List.take_succ_cons, List.prod_cons]
      ring

theorem zipWith_mul_eq_mapIdx :
    ∀ (l d : List ℚ) (w : ℕ → ℚ), l.length ≤ d.length →
      (∀ k, k < l.length → d.getD k 0 = w k) →
      List.zipWith (fun a x => a * x) d l = l.mapIdx fun k x => w k * x := by
  intro l
  induction l with
  | nil => intro d w _ _; simp
  | cons x xs ih =>
    intro d w hlen hw
    cases d with
    | nil => simp at hlen
    | cons a d =>
      simp only [List.length_cons, Nat.add_le_add_iff_right] at hlen
      have h0 : a = w 0 := by
        have := hw 0 (by simp)
        simpa using this
      simp only [List.zipWith_cons_cons, List.mapIdx_cons, h0]
      congr 1
      apply ih d (fun k => w (k + 1)) hlen
      intro k hk
      have := hw (k + 1) (by simpa using Nat.succ_lt_succ hk)
      simpa using this

theorem getD_dropLast (l : List ℚ) (k : ℕ) (hk : k < l.length - 1) :
    l.dropLast.getD k 0 = l.getD k 0 := by
  have h1 : k < l.dropLast.length := by
    simp only [List.length_dropLast]; exact hk
  have h2 : k < l.length := by omega
  rw [List.getD_eq_getElem _ _ h1, List.getD_eq_getElem _ _ h2]
  exact List.getElem_dropLast l k h1

/-- C2: the discount weight at step `t` is the product of the continuation
values at steps `k < t` (with weight `1` at `t = 0`), it is multiplied into
each per-step term of both the actor objective and the critic regression
loss, and with constant continuation `0.99` over four steps the weights are
`[1, 0.99, 0.9801, 0.970299]` exactly. -/
theorem cumulative_discount_weights
    (c objective entpy logprob : List ℚ) (t : ℕ)
    (hne : c ≠ []) (ht : t < c.length)
    (ho : objective.length = c.length - 2) (he : entpy.length = objective.length)
    (hl : logprob.length = c.length - 1) :
    (discount_weights c).getD t 0 = (c.take t).prod ∧
    (discount_weights c).getD 0 0 = 1 ∧
    policy_loss (discount_weights c) objective entpy =
      -(listMean ((List.zipWith (fun o e => o + e) objective entpy).mapIdx
          fun k x => (c.take k).prod * x)) ∧
    value_loss (discount_weights c) logprob =
      -(listMean (logprob.mapIdx fun k x => (c.take k).prod * x)) ∧
    discount_weights [99/100, 99/100, 99/100, 99/100] =
      [1, 99/100, 9801/10000, 970299/1000000] := by
  have hlen := discount_weights_length c hne
  have hpos : 0 < c.length := List.length_pos.mpr hne
  refine ⟨discount_weights_getD c t hne ht, ?_, ?_, ?_, ?_⟩
  · have := discount_weights_getD c 0 hne hpos
    simpa using this
  · rw [policy_loss]
    congr 1
    congr 1
    apply zipWith_mul_eq_mapIdx
    · rw [List.length_zipWith, he, ho]
      simp only [List.length_dropLast, hlen]
      omega
    · intro k hk
      rw [List.length_zipWith, he, ho] at hk
      have hk2 : k < c.length - 2 := by omega
      rw [getD_dropLast, getD_dropLast]
      · exact discount_weights_getD c k hne (by omega)
      · rw [hlen]; omega
      · simp only [List.length_dropLast, hlen]; omega
  · rw [value_loss]
    congr 1
    congr 1
    apply zipWith_mul_eq_mapIdx
    · rw [hl]
      simp only [List.length_dropLast, hlen]
      omega
    · intro k hk
      rw [hl] at hk
      rw [getD_dropLast]
      · exact discount_weights_getD c k hne (by omega)
      · rw [hlen]; omega
  · norm_num [discount_weights, cumprod, cumprodAux]

/-- Witness for C2: the discount theorem applied at a concrete input. -/
theorem cumulative_discount_weights_witness :
    ([1/2, 1/3, 1/4] : List ℚ) ≠ [] ∧
    2 < ([1/2, 1/3, 1/4] : List ℚ).length ∧
    ([7] : List ℚ).length = ([1/2, 1/3, 1/4] : List ℚ).length - 2 ∧
    ([5] : List ℚ).length = ([7] : List ℚ).length ∧
    ([3, 4] : List ℚ).length = ([1/2, 1/3, 1/4] : List ℚ).length - 1 ∧
    ((discount_weights [1/2, 1/3, 1/4]).getD 2 0 = (([1/2, 1/3, 1/4] : List ℚ).take 2).prod ∧
    (discount_weights [1/2, 1/3, 1/4]).getD 0 0 = 1 ∧
    policy_loss (discount_weights [1/2, 1/3, 1/4]) [7] [5] =
      -(listMean ((List.zipWith (fun o e => o + e) ([7] : List ℚ) [5]).mapIdx
          fun k x => (([1/2, 1/3, 1/4] : List ℚ).take k).prod * x)) ∧
    value_loss (discount_weights [1/2, 1/3, 1/4]) [3, 4] =
      -(listMean (([3, 4] : List ℚ).mapIdx
          fun k x => (([1/2, 1/3, 1/4] : List ℚ).take k).prod * x)) ∧
    discount_weights [99/100, 99/100, 99/100, 99/100] =
      [1, 99/100, 9801/10000, 970299/1000000]) :=
  ⟨by simp, by simp, by simp, by simp, by simp,
    cumulative_discount_weights [1/2, 1/3, 1/4] [7] [5] [3, 4] 2
      (by simp) (by simp) (by simp) (by simp) (by simp)⟩

/-! ## Dynamics Stepper (episode-boundary reset)

The training loop of `sheeprl/algos/dreamer_v2/dreamer_v2.py` (lines 134-158)
initializes the recurrent and posterior states to zero and calls
`world_model.rssm.dynamic(posterior, recurrent_state, actions[i], embedded_obs[i], is_first[i])`
once per timestep.  The body of `RSSM.dynamic` for DreamerV2 lives in
`sheeprl/algos/dreamer_v2/agent.py`, which is not part of the sources at
hand, so the stepper is modelled from the spec.  States are per batch
element (functions from the batch index); `is_first` carries the values
`0` or `1` as in the float tensor of the code. -/

/-- The three networks the DreamerV2 Dynamics Stepper uses, abstracted as
functions: the Recurrent Transition Unit maps (stochastic, action, recurrent)
to the new recurrent state; the Prior Predictor maps the recurrent state to a
prior sample; the Posterior Estimator maps (recurrent state, observation
embedding) to a posterior sample. -/
structure RSSMv2 where
  recurrent_model : ℚ → ℚ → ℚ → ℚ
  transition_model : ℚ → ℚ
  representation_model : ℚ → ℚ → ℚ

/-- Modelled from the spec: `RSSM.dynamic` of `sheeprl.algos.dreamer_v2.agent`
(absent from the sources; only its call site in `dreamer_v2.py` line 152-154 is
visible).  Spec section 4.4: if `is_first` is asserted for a batch element, the
incoming recurrent and stochastic states of that element are reset to zero
before the recurrent transition is applied; then the Recurrent Transition Unit,
the Prior Predictor and the Posterior Estimator run.  Returns
(new recurrent state, posterior sample, prior sample). -/
def rssmDynamic (m : RSSMv2) (posterior recurrent action obs is_first : ℕ → ℚ) :
    (ℕ → ℚ) × (ℕ → ℚ) × (ℕ → ℚ) :=
  let posterior0 := fun b => (1 - is_first b) * posterior b
  let recurrent0 := fun b => (1 - is_first b) * recurrent b
  let recurrent1 := fun b => m.recurrent_model (posterior0 b) (action b) (recurrent0 b)
  let prior := fun b => m.transition_model (recurrent1 b)
  let posterior1 := fun b => m.representation_model (recurrent1 b) (obs b)
  (recurrent1, posterior1, prior)

/-- The dynamic-learning loop of `dreamer_v2.py` lines 134-158: starting from
zero recurrent and posterior states, one `rssmDynamic` step per timestep.
`dynamicLearningState m actions obs isf t` is the carried
(recurrent, posterior) pair after `t` steps; its value at `t + 1` holds the
states stored at sequence index `t`. -/
def dynamicLearningState (m : RSSMv2) (actions obs isf : ℕ → ℕ → ℚ) : ℕ → (ℕ → ℚ) × (ℕ → ℚ)
  | 0 => (fun _ => 0, fun _ => 0)
  | t + 1 =>
    let s := dynamicLearningState m actions obs isf t
    let r := rssmDynamic m s.2 s.1 (actions t) (obs t) (isf t)
    (r.1, r.2.1)

theorem dynamicLearningState_agree (m : RSSMv2) (actions obs : ℕ → ℕ → ℚ) :
    ∀ (t : ℕ) (isf isf2 : ℕ → ℕ → ℚ), (∀ s b, s < t → isf2 s b = isf s b) →
      dynamicLearningState m actions obs isf2 t = dynamicLearningState m actions obs isf t := by
  intro t
  induction t with
  | zero => intro isf isf2 _; rfl
  | succ t ih =>
    intro isf isf2 h
    have hprev : dynamicLearningState m actions obs isf2 t =
        dynamicLearningState m actions obs isf t :=
      ih isf isf2 fun s b hs => h s b (Nat.lt_succ_of_lt hs)
    have hstep : isf2 t = isf t := funext fun b => h t b (Nat.lt_succ_self t)
    simp only [dynamicLearningState, hprev, hstep]

/-! ## Distribution utilities and the min_std floor

`RSSM._representation` and `RSSM._transition`
(`sheeprl/algos/dreamer_v1/agent.py` lines 119-151) both call
`compute_stochastic_state(..., min_std=self.min_std)`, while
`PlayerDV1.get_greedy_action` (lines 306-315) calls
`compute_stochastic_state(self.representation_model(...))` without passing
`min_std`, so that call uses the utility's own default floor rather than the
configured one. -/

/-- Modelled from the spec: `compute_stochastic_state` from
`sheeprl.algos.dreamer_v1.utils` (absent from the sources; only its call
sites in `dreamer_v1/agent.py` are visible).  Spec section 4.1: the
continuous variant clamps the predicted standard deviation to
`max(raw_std, min_std)` and samples with the reparameterized
`mean + std * noise`.  Returns `((mean, std), sample)`. -/
def compute_stochastic_state (meanRaw stdRaw min_std noise : ℚ) : (ℚ × ℚ) × ℚ :=
  let std := max stdRaw min_std
  ((meanRaw, std), meanRaw + std * noise)

/-- The DreamerV1 RSSM of `dreamer_v1/agent.py` lines 50-172, with its three
networks abstracted as functions: the recurrent model maps
(stochastic state, action, previous recurrent state) to
(recurrent output, recurrent state); the representation and transition
models produce raw `(mean, std)` distribution parameters. -/
structure RSSMv1 where
  recurrent_model : ℚ → ℚ → ℚ → ℚ × ℚ
  representation_model : ℚ → ℚ → ℚ × ℚ
  transition_model : ℚ → ℚ × ℚ
  min_std : ℚ

/-- `RSSM._representation` (`dreamer_v1/agent.py` lines 119-138): the posterior
distribution parameters and sample, computed by the shared utility with the
configured `self.min_std`. -/
def RSSMv1.representation (m : RSSMv1) (recurrent_state obs noise : ℚ) : (ℚ × ℚ) × ℚ :=
  compute_stochastic_state (m.representation_model recurrent_state obs).1
    (m.representation_model recurrent_state obs).2 m.min_std noise

/-- `RSSM._transition` (`dreamer_v1/agent.py` lines 140-151): the prior
distribution parameters and sample, computed by the shared utility with the
configured `self.min_std`. -/
def RSSMv1.transition (m : RSSMv1) (recurrent_out noise : ℚ) : (ℚ × ℚ) × ℚ :=
  compute_stochastic_state (m.transition_model recurrent_out).1
    (m.transition_model recurrent_out).2 m.min_std noise

/-- The stochastic-state computation of `PlayerDV1.get_greedy_action`
(`dreamer_v1/agent.py` lines 306-315): it calls
`compute_stochastic_state(self.representation_model(...))` without the
`min_std` argument, hence with the utility's default floor of `0.1`
(the default documented for the floor, spec section 3). -/
def player_greedy_stochastic (representation_model : ℚ → ℚ → ℚ × ℚ)
    (recurrent_state obs noise : ℚ) : (ℚ × ℚ) × ℚ :=
  compute_stochastic_state (representation_model recurrent_state obs).1
    (representation_model recurrent_state obs).2 (1/10) noise

/-- A concrete RSSM whose predictors emit raw standard deviation `0` and whose
configured floor is `min_std = 2`. -/
def zeroStdModel : RSSMv1 :=
  ⟨fun s a r => (s + a + r, s + a + r), fun _ _ => (0, 0), fun _ => (0, 0), 2⟩

/-- Counterexample to C4: with configured `min_std = 2` and a Posterior
Estimator emitting raw std `0`, the player's greedy-action path produces a
posterior with std `0.1` (the utility default), strictly below the
configured floor, because `PlayerDV1.get_greedy_action` does not pass
`min_std` to the shared utility. -/
theorem min_std_floor_counterexample :
    ((player_greedy_stochastic zeroStdModel.representation_model 0 0 0).1).2 = 1/10 ∧
    ¬ zeroStdModel.min_std ≤
      ((player_greedy_stochastic zeroStdModel.representation_model 0 0 0).1).2 := by
  constructor
  · norm_num [player_greedy_stochastic, compute_stochastic_state, zeroStdModel, max_def]
  · norm_num [player_greedy_stochastic, compute_stochastic_state, zeroStdModel, max_def]

/-- C4 amended: the RSSM prior and posterior paths floor the standard
deviation at the configured `min_std` exactly (raw std `0` yields the floor
when the floor is nonnegative), both through the shared utility
`compute_stochastic_state` with the same configured floor (identical raw
parameters give identical results); the player's greedy-action path calls
the shared utility without `min_std`, so its std is only guaranteed to be
at least the utility default `0.1`. -/
theorem min_std_floor_amended
    (m : RSSMv1) (rep : ℚ → ℚ → ℚ × ℚ) (recurrent obs recOut noise : ℚ)
    (hmz : 0 ≤ m.min_std)
    (hzero : (m.representation_model recurrent obs).2 = 0)
    (heq : m.representation_model recurrent obs = m.transition_model recOut) :
    m.min_std ≤ ((m.representation recurrent obs noise).1).2 ∧
    m.min_std ≤ ((m.transition recOut noise).1).2 ∧
    ((m.representation recurrent obs noise).1).2 = m.min_std ∧
    m.representation recurrent obs noise = m.transition recOut noise ∧
    (1 : ℚ)/10 ≤ ((player_greedy_stochastic rep recurrent obs noise).1).2 := by
  refine ⟨?_, ?_, ?_, ?_, ?_⟩
  · exact le_max_right _ _
  · exact le_max_right _ _
  · simp only [RSSMv1.representation, compute_stochastic_state, hzero]
    exact max_eq_right hmz
  · simp only [RSSMv1.representation, RSSMv1.transition, heq]
  · exact le_max_right _ _

/-- Witness for C4 (amended): the floor theorem applied to the concrete
zero-std model. -/
theorem min_std_floor_amended_witness :
    (0 : ℚ) ≤ zeroStdModel.min_std ∧
    (zeroStdModel.representation_model 3 4).2 = 0 ∧
    zeroStdModel.representation_model 3 4 = zeroStdModel.transition_model 5 ∧
    (zeroStdModel.min_std ≤ ((zeroStdModel.representation 3 4 1).1).2 ∧
    zeroStdModel.min_std ≤ ((zeroStdModel.transition 5 1).1).2 ∧
    ((zeroStdModel.representation 3 4 1).1).2 = zeroStdModel.min_std ∧
    zeroStdModel.representation 3 4 1 = zeroStdModel.transition 5 1 ∧
    (1 : ℚ)/10 ≤ ((player_greedy_stochastic zeroStdModel.representation_model 3 4 1).1).2) :=
  ⟨by norm_num [zeroStdModel], by norm_num [zeroStdModel], by norm_num [zeroStdModel],
    min_std_floor_amended zeroStdModel zeroStdModel.representation_model 3 4 5 1
      (by norm_num [zeroStdModel]) (by norm_num [zeroStdModel]) (by norm_num [zeroStdModel])⟩

/-! ## DreamerV1 dynamic step: no episode-boundary reset

`RSSM.dynamic` of `dreamer_v1/agent.py` (lines 80-117) takes no `is_first`
argument: it feeds the incoming posterior and recurrent state directly into
the recurrent model, then the transition and representation models.  Its
training caller (`p2e/p2e.py` lines 64-106) initializes the states to zero
once and carries them across the whole training window; the stored
`is_first` flag of the replay batch is never consumed on this path. -/

/-- `RSSM.dynamic` (`dreamer_v1/agent.py` lines 80-117): one dynamic-learning
step.  The recurrent model consumes the previous posterior, the action and
the previous recurrent state unmodified (there is no `is_first` parameter
and no reset); then `_transition` predicts the prior from the recurrent
output and `_representation` computes the posterior from the recurrent
state and the embedded observation.  Returns
(recurrent state, posterior, prior, posterior params, prior params). -/
def RSSMv1.dynamic (m : RSSMv1) (posterior recurrent_state action obs noisePr noisePo : ℚ) :
    ℚ × ℚ × ℚ × (ℚ × ℚ) × (ℚ × ℚ) :=
  let ro := m.recurrent_model posterior action recurrent_state
  let pr := m.transition ro.1 noisePr
  let po := m.representation ro.2 obs noisePo
  (ro.2, po.2, pr.2, po.1, pr.1)

/-- The per-timestep replay data consumed by the DreamerV1 dynamic-learning
loop (`p2e/p2e.py` lines 94-100) for one batch example: actions and embedded
observations are read; the stored `is_first` flag travels with the batch but
is never read on this code path. -/
structure P2EBatch where
  actions : ℕ → ℚ
  obs : ℕ → ℚ
  is_first : ℕ → ℚ

/-- The dynamic-learning recurrence of the DreamerV1 path
(`p2e/p2e.py` lines 64-106): recurrent and stochastic states start at zero
and one `RSSMv1.dynamic` call per timestep carries
(recurrent state, posterior) forward; no reset ever occurs mid-window. -/
def p2eDynamicState (m : RSSMv1) (data : P2EBatch) (noisePr noisePo : ℕ → ℚ) : ℕ → ℚ × ℚ
  | 0 => (0, 0)
  | t + 1 =>
    let s := p2eDynamicState m data noisePr noisePo t
    let r := m.dynamic s.2 s.1 (data.actions t) (data.obs t) (noisePr t) (noisePo t)
    (r.1, r.2.1)

theorem p2eDynamicState_is_first_invariant (m : RSSMv1) (a o isf isf2 : ℕ → ℚ)
    (noisePr noisePo : ℕ → ℚ) :
    ∀ t : ℕ, p2eDynamicState m ⟨a, o, isf2⟩ noisePr noisePo t =
      p2eDynamicState m ⟨a, o, isf⟩ noisePr noisePo t := by
  intro t
  induction t with
  | zero => rfl
  | succ t ih => simp only [p2eDynamicState, ih]

/-- A concrete DreamerV1 RSSM for exercising the dynamic step. -/
def dv1DemoModel : RSSMv1 :=
  ⟨fun s a r => (s + a + r, s + a + r), fun r o => (r + o, 1), fun r => (r, 1), 1/10⟩

/-- A concrete replay batch whose stored `is_first` flag is `1` at timestep 1
(a mid-window episode boundary). -/
def dv1DemoBatch : P2EBatch :=
  ⟨fun t => (t : ℚ) + 1, fun _ => 1, fun t => if t = 1 then 1 else 0⟩

/-- Counterexample to C3: the claim also covers `RSSM.dynamic` of
`dreamer_v1/agent.py` (lines 80-117), which takes no `is_first` input and
never resets.  In the DreamerV1 dynamic-learning loop, with the stored
`is_first` flag equal to `1` at timestep 1, the state fed into the
transition at timestep 1 is the carried `(recurrent, stochastic) = (1, 2)`
from timestep 0, not `(0, 0)`, and the recurrent state computed at
timestep 1 is the one obtained from the carried state (`5`), not the one the
claimed reset would produce from zeroed states (`2`). -/
theorem is_first_reset_counterexample :
    dv1DemoBatch.is_first 1 = 1 ∧
    p2eDynamicState dv1DemoModel dv1DemoBatch (fun _ => 0) (fun _ => 0) 1 = (1, 2) ∧
    ¬ p2eDynamicState dv1DemoModel dv1DemoBatch (fun _ => 0) (fun _ => 0) 1 = (0, 0) ∧
    (p2eDynamicState dv1DemoModel dv1DemoBatch (fun _ => 0) (fun _ => 0) 2).1 = 5 ∧
    ¬ (p2eDynamicState dv1DemoModel dv1DemoBatch (fun _ => 0) (fun _ => 0) 2).1 =
      (dv1DemoModel.recurrent_model 0 (dv1DemoBatch.actions 1) 0).2 := by
  have h1 : p2eDynamicState dv1DemoModel dv1DemoBatch (fun _ => 0) (fun _ => 0) 1 =
      ((1 : ℚ), (2 : ℚ)) := by
    show (let s := ((0 : ℚ), (0 : ℚ))
          let r := dv1DemoModel.dynamic s.2 s.1 (dv1DemoBatch.actions 0) (dv1DemoBatch.obs 0)
            0 0
          (r.1, r.2.1)) = ((1 : ℚ), (2 : ℚ))
    norm_num [dv1DemoModel, dv1DemoBatch, RSSMv1.dynamic, RSSMv1.representation,
      RSSMv1.transition, compute_stochastic_state, max_def]
  have h2 : (p2eDynamicState dv1DemoModel dv1DemoBatch (fun _ => 0) (fun _ => 0) 2).1 =
      (5 : ℚ) := by
    show ((let s := p2eDynamicState dv1DemoModel dv1DemoBatch (fun _ => 0) (fun _ => 0) 1
           let r := dv1DemoModel.dynamic s.2 s.1 (dv1DemoBatch.actions 1) (dv1DemoBatch.obs 1)
             0 0
           (r.1, r.2.1)).1) = (5 : ℚ)
    rw [h1]
    norm_num [dv1DemoModel, dv1DemoBatch, RSSMv1.dynamic, RSSMv1.representation,
      RSSMv1.transition, compute_stochastic_state, max_def]
  refine ⟨by norm_num [dv1DemoBatch], h1, ?_, h2, ?_⟩
  · rw [h1]
    intro h
    have := congrArg Prod.fst h
    norm_num at this
  · rw [h2]
    norm_num [dv1DemoModel, dv1DemoBatch]

/-- C3 amended: in the DreamerV2 training path, where `is_first` is passed
into the stepper, `is_first = 1` at timestep `t` makes the (spec-modelled)
Dynamics Stepper feed zeroed recurrent and stochastic states into the
transition at `t` per batch element, the states stored for timesteps before
`t` do not depend on the `is_first` values at `t` or later, and when
`is_first = 0` at `t + 1` the transition at `t + 1` consumes exactly the
states carried out of step `t`, unreset.  The DreamerV1 `RSSM.dynamic` used
by the p2e training loop takes no `is_first` input and never resets: even at
a timestep whose stored flag is `1`, the transition consumes the carried
state of the previous step, and the loop's outputs are invariant under
arbitrary changes of the stored flag. -/
theorem is_first_resets_state
    (m : RSSMv2) (actions obs isf isf2 : ℕ → ℕ → ℚ) (t b : ℕ)
    (m1 : RSSMv1) (data : P2EBatch) (isfB2 noisePr noisePo : ℕ → ℚ) (t2 : ℕ)
    (h1 : isf t b = 1)
    (h2 : ∀ s b2, s < t → isf2 s b2 = isf s b2)
    (h3 : isf (t + 1) b = 0)
    (_hflag : data.is_first t2 = 1) :
    ((dynamicLearningState m actions obs isf (t + 1)).1 b =
      m.recurrent_model 0 (actions t b) 0) ∧
    (dynamicLearningState m actions obs isf2 t = dynamicLearningState m actions obs isf t) ∧
    ((dynamicLearningState m actions obs isf (t + 2)).1 b =
      m.recurrent_model ((dynamicLearningState m actions obs isf (t + 1)).2 b)
        (actions (t + 1) b) ((dynamicLearningState m actions obs isf (t + 1)).1 b)) ∧
    ((p2eDynamicState m1 data noisePr noisePo (t2 + 1)).1 =
      (m1.recurrent_model ((p2eDynamicState m1 data noisePr noisePo t2).2)
        (data.actions t2) ((p2eDynamicState m1 data noisePr noisePo t2).1)).2) ∧
    (p2eDynamicState m1 ⟨data.actions, data.obs, isfB2⟩ noisePr noisePo t2 =
      p2eDynamicState m1 data noisePr noisePo t2) := by
  refine ⟨?_, dynamicLearningState_agree m actions obs t isf isf2 h2, ?_, ?_, ?_⟩
  · simp only [dynamicLearningState, rssmDynamic, h1]
    norm_num
  · have hstep : dynamicLearningState m actions obs isf (t + 2) =
        (let s := dynamicLearningState m actions obs isf (t + 1)
         let r := rssmDynamic m s.2 s.1 (actions (t + 1)) (obs (t + 1)) (isf (t + 1))
         (r.1, r.2.1)) := rfl
    rw [hstep]
    simp only [rssmDynamic, h3]
    norm_num
  · rfl
  · exact p2eDynamicState_is_first_invariant m1 data.actions data.obs data.is_first isfB2
      noisePr noisePo t2

/-- Witness for C3 (amended): the theorem applied to a concrete DreamerV2
stepper with `is_first = 1` at timestep 1, batch element 0, and to the
concrete DreamerV1 model and batch with the stored flag set at timestep 1. -/
theorem is_first_resets_state_witness :
    ((fun t _ => if t = 1 then (1 : ℚ) else 0) 1 0 = 1) ∧
    (∀ s b2, s < 1 → (fun t b => if t = 0 then (0 : ℚ) else 7 + b) s b2 =
      (fun t _ => if t = 1 then (1 : ℚ) else 0) s b2) ∧
    ((fun t _ => if t = 1 then (1 : ℚ) else 0) 2 0 = 0) ∧
    (dv1DemoBatch.is_first 1 = 1) ∧
    (((dynamicLearningState ⟨fun p a r => p + a + r, fun r => r + 1, fun r o => r * o⟩
        (fun t b => (t : ℚ) + b) (fun t b => (t : ℚ) * b)
        (fun t _ => if t = 1 then (1 : ℚ) else 0) 2).1 0 =
      (fun p a r => p + a + r) 0 ((fun t b => (t : ℚ) + b) 1 0) 0) ∧
    (dynamicLearningState ⟨fun p a r => p + a + r, fun r => r + 1, fun r o => r * o⟩
        (fun t b => (t : ℚ) + b) (fun t b => (t : ℚ) * b)
        (fun t b => if t = 0 then (0 : ℚ) else 7 + b) 1 =
      dynamicLearningState ⟨fun p a r => p + a + r, fun r => r + 1, fun r o => r * o⟩
        (fun t b => (t : ℚ) + b) (fun t b => (t : ℚ) * b)
        (fun t _ => if t = 1 then (1 : ℚ) else 0) 1) ∧
    ((dynamicLearningState ⟨fun p a r => p + a + r, fun r => r + 1, fun r o => r * o⟩
        (fun t b => (t : ℚ) + b) (fun t b => (t : ℚ) * b)
        (fun t _ => if t = 1 then (1 : ℚ) else 0) 3).1 0 =
      (fun p a r => p + a + r)
        ((dynamicLearningState ⟨fun p a r => p + a + r, fun r => r + 1, fun r o => r * o⟩
          (fun t b => (t : ℚ) + b) (fun t b => (t : ℚ) * b)
          (fun t _ => if t = 1 then (1 : ℚ) else 0) 2).2 0)
        ((fun t b => (t : ℚ) + b) 2 0)
        ((dynamicLearningState ⟨fun p a r => p + a + r, fun r => r + 1, fun r o => r * o⟩
          (fun t b => (t : ℚ) + b) (fun t b => (t : ℚ) * b)
          (fun t _ => if t = 1 then (1 : ℚ) else 0) 2).1 0)) ∧
    ((p2eDynamicState dv1DemoModel dv1DemoBatch (fun _ => 0) (fun _ => 0) 2).1 =
      (dv1DemoModel.recurrent_model
        ((p2eDynamicState dv1DemoModel dv1DemoBatch (fun _ => 0) (fun _ => 0) 1).2)
        (dv1DemoBatch.actions 1)
        ((p2eDynamicState dv1DemoModel dv1DemoBatch (fun _ => 0) (fun _ => 0) 1).1)).2) ∧
    (p2eDynamicState dv1DemoModel ⟨dv1DemoBatch.actions, dv1DemoBatch.obs, fun _ => 42⟩
        (fun _ => 0) (fun _ => 0) 1 =
      p2eDynamicState dv1DemoModel dv1DemoBatch (fun _ => 0) (fun _ => 0) 1)) :=
  ⟨by norm_num, by intro s b2 hs; interval_cases s; norm_num, by norm_num,
    by norm_num [dv1DemoBatch],
    is_first_resets_state ⟨fun p a r => p + a + r, fun r => r + 1, fun r o => r * o⟩
      (fun t b => (t : ℚ) + b) (fun t b => (t : ℚ) * b)
      (fun t _ => if t = 1 then (1 : ℚ) else 0)
      (fun t b => if t = 0 then (0 : ℚ) else 7 + b) 1 0
      dv1DemoModel dv1DemoBatch (fun _ => 42) (fun _ => 0) (fun _ => 0) 1
      (by norm_num) (by intro s b2 hs; interval_cases s; norm_num) (by norm_num)
      (by norm_num [dv1DemoBatch])⟩

/-! ## Imagination Roller

`RSSM.imagination` (`dreamer_v1/agent.py` lines 153-172) performs one
imagination step using only the recurrent model and the transition model.
The DreamerV2 training loop (`dreamer_v2/dreamer_v2.py` lines 234-276)
allocates `horizon + 1` slots for latent states and actions, stores the seed
at index 0 and a zero action placeholder at index 0, then runs the loop for
`i = 1 .. horizon`.  The P2E training loop (`p2e/p2e.py` lines 196-216)
allocates only `horizon` slots for the trajectory (the seed is not stored)
and writes each sampled action into index 0 of its action buffer
(`all_actions[0] = actions`). -/

/-- `RSSM.imagination` (`dreamer_v1/agent.py` lines 153-172): one-step
imagination of the next latent state; applies the recurrent model to the
(stochastic state, action) input and the previous recurrent state, then
samples the prior via `_transition`.  Returns
(imagined prior, recurrent state).  The representation model is not used. -/
def RSSMv1.imagination (m : RSSMv1) (stochastic_state recurrent_state action noise : ℚ) :
    ℚ × ℚ :=
  let ro := m.recurrent_model stochastic_state action recurrent_state
  let tr := m.transition ro.1 noise
  (tr.2, ro.2)

/-- The body of the DreamerV2 imagination loop (`dreamer_v2.py` lines
264-276): `n` remaining iterations, `i` the current step index for the noise
source, `st` the current latent state `(stochastic, recurrent)`.  Each
iteration samples an action from the actor at the current latent state,
applies `RSSM.imagination`, and appends the new latent state and the action. -/
def imagineStepsV2 (m : RSSMv1) (actor : ℚ × ℚ → ℚ) (noise : ℕ → ℚ) :
    ℕ → ℕ → ℚ × ℚ → List (ℚ × ℚ) × List ℚ
  | 0, _, _ => ([], [])
  | n + 1, i, st =>
    let a := actor st
    let st2 := m.imagination st.1 st.2 a (noise i)
    let rest := imagineStepsV2 m actor noise n (i + 1) st2
    (st2 :: rest.1, a :: rest.2)

/-- The DreamerV2 imagination rollout (`dreamer_v2.py` lines 234-276):
`imagined_trajectories[0]` is the seed latent state,
`imagined_actions[0]` is the zero placeholder, and the loop fills indices
`1 .. horizon`.  Returns (latent states, actions). -/
def imagination_rollout_v2 (m : RSSMv1) (actor : ℚ × ℚ → ℚ) (noise : ℕ → ℚ)
    (seed : ℚ × ℚ) (horizon : ℕ) : List (ℚ × ℚ) × List ℚ :=
  let steps := imagineStepsV2 m actor noise horizon 1 seed
  (seed :: steps.1, 0 :: steps.2)

/-- The body of the P2E imagination loop (`p2e/p2e.py` lines 204-216): the
action buffer `acts` is threaded through the loop and each iteration
executes `all_actions[0] = actions`, i.e. overwrites index 0; the trajectory
stores only the post-step latent states. -/
def p2eLoop (m : RSSMv1) (actor : ℚ × ℚ → ℚ) (noise : ℕ → ℚ) :
    ℕ → ℕ → ℚ × ℚ → List ℚ → List (ℚ × ℚ) × List ℚ
  | 0, _, _, acts => ([], acts)
  | n + 1, i, st, acts =>
    let a := actor st
    let acts2 := acts.set 0 a
    let st2 := m.imagination st.1 st.2 a (noise i)
    let rest := p2eLoop m actor noise n (i + 1) st2 acts2
    (st2 :: rest.1, rest.2)

/-- The P2E imagination rollout (`p2e/p2e.py` lines 196-216):
`imagined_trajectories` has `horizon` slots and the seed is not stored;
`all_actions` starts as `torch.zeros(horizon, ...)`. -/
def p2e_rollout (m : RSSMv1) (actor : ℚ × ℚ → ℚ) (noise : ℕ → ℚ)
    (seed : ℚ × ℚ) (horizon : ℕ) : List (ℚ × ℚ) × List ℚ :=
  p2eLoop m actor noise horizon 0 seed (List.replicate horizon 0)

theorem imagineStepsV2_length (m : RSSMv1) (actor : ℚ × ℚ → ℚ) (noise : ℕ → ℚ) :
    ∀ (n i : ℕ) (st : ℚ × ℚ),
      (imagineStepsV2 m actor noise n i st).1.length = n ∧
      (imagineStepsV2 m actor noise n i st).2.length = n := by
  intro n
  induction n with
  | zero => intro i st; exact ⟨rfl, rfl⟩
  | succ n ih =>
    intro i st
    simp only [imagineStepsV2, List.length_cons]
    exact ⟨by rw [(ih (i + 1) _).1], by rw [(ih (i + 1) _).2]⟩

theorem imagineStepsV2_actions (m : RSSMv1) (actor : ℚ × ℚ → ℚ) (noise : ℕ → ℚ) :
    ∀ (n i : ℕ) (st : ℚ × ℚ) (j : ℕ), j < n →
      (imagineStepsV2 m actor noise n i st).2.getD j 0 =
        actor ((st :: (imagineStepsV2 m actor noise n i st).1).getD j (0, 0)) := by
  intro n
  induction n with
  | zero => intro i st j hj; simp at hj
  | succ n ih =>
    intro i st j hj
    cases j with
    | zero => simp [imagineStepsV2]
    | succ j =>
      have hj2 : j < n := by omega
      have := ih (i + 1) (m.imagination st.1 st.2 (actor st) (noise i)) j hj2
      simpa [imagineStepsV2] using this

theorem p2eLoop_acts_length (m : RSSMv1) (actor : ℚ × ℚ → ℚ) (noise : ℕ → ℚ) :
    ∀ (n i : ℕ) (st : ℚ × ℚ) (acts : List ℚ),
      (p2eLoop m actor noise n i st acts).2.length = acts.length := by
  intro n
  induction n with
  | zero => intro i st acts; rfl
  | succ n ih =>
    intro i st acts
    simp only [p2eLoop]
    rw [ih]
    exact List.length_set acts 0 _

theorem getD_set_zero_succ (acts : List ℚ) (a : ℚ) (j : ℕ) :
    (acts.set 0 a).getD (j + 1) 0 = acts.getD (j + 1) 0 := by
  cases acts with
  | nil => rfl
  | cons x xs => simp [List.set]

theorem p2eLoop_acts_getD (m : RSSMv1) (actor : ℚ × ℚ → ℚ) (noise : ℕ → ℚ) :
    ∀ (n i : ℕ) (st : ℚ × ℚ) (acts : List ℚ) (j : ℕ),
      (p2eLoop m actor noise n i st acts).2.getD (j + 1) 0 = acts.getD (j + 1) 0 := by
  intro n
  induction n with
  | zero => intro i st acts j; rfl
  | succ n ih =>
    intro i st acts j
    simp only [p2eLoop]
    rw [ih]
    exact getD_set_zero_succ acts _ j

theorem p2eLoop_traj_length (m : RSSMv1) (actor : ℚ × ℚ → ℚ) (noise : ℕ → ℚ) :
    ∀ (n i : ℕ) (st : ℚ × ℚ) (acts : List ℚ),
      (p2eLoop m actor noise n i st acts).1.length = n := by
  intro n
  induction n with
  | zero => intro i st acts; rfl
  | succ n ih =>
    intro i st acts
    simp only [p2eLoop, List.length_cons]
    rw [ih]

theorem getD_replicate_zero : ∀ (n j : ℕ), (List.replicate n (0 : ℚ)).getD j 0 = 0 := by
  intro n
  induction n with
  | zero => intro j; cases j <;> rfl
  | succ n ih =>
    intro j
    cases j with
    | zero => rfl
    | succ j =>
      rw [List.replicate_succ, List.getD_cons_succ]
      exact ih j

/-- Counterexample to C5: with horizon `3` the P2E imagination rollout (cited
by the claim alongside the DreamerV2 one) produces a trajectory of `3` latent
states, not `3 + 1`: its trajectory buffer has only `horizon` slots and the
seed state is not stored. -/
theorem imagination_rollout_counterexample :
    (p2e_rollout ⟨fun s a r => (s + a + r, s + a - r), fun r o => (r + o, 1), fun r => (r, 1),
        1/10⟩ (fun st => st.1 + st.2 + 1) (fun i => (i : ℚ)) (0, 0) 3).1.length = 3 ∧
    ¬ (p2e_rollout ⟨fun s a r => (s + a + r, s + a - r), fun r o => (r + o, 1), fun r => (r, 1),
        1/10⟩ (fun st => st.1 + st.2 + 1) (fun i => (i : ℚ)) (0, 0) 3).1.length = 3 + 1 := by
  constructor
  · exact p2eLoop_traj_length _ _ _ 3 0 _ _
  · rw [p2e_rollout, p2eLoop_traj_length _ _ _ 3 0 _ _]
    omega

/-- C5 amended: the DreamerV2 imagination rollout with horizon `H` produces
exactly `H + 1` latent states (the seed at index 0 plus `H` imagined steps)
and `H + 1` action slots with the zero placeholder at index 0 and the `H`
sampled actions at indices `1 .. H`, each sampled from the preceding latent
state; the P2E rollout instead produces `H` latent states (the seed is not
stored) and an action buffer of `H` slots in which every sampled action is
written to index 0, all later indices remaining zero. -/
theorem imagination_rollout_shape
    (m : RSSMv1) (actor : ℚ × ℚ → ℚ) (noise : ℕ → ℚ) (seed : ℚ × ℚ)
    (horizon i j : ℕ) (hi1 : 1 ≤ i) (hi2 : i ≤ horizon) (hj : 1 ≤ j) :
    (imagination_rollout_v2 m actor noise seed horizon).1.length = horizon + 1 ∧
    (imagination_rollout_v2 m actor noise seed horizon).2.length = horizon + 1 ∧
    (imagination_rollout_v2 m actor noise seed horizon).1.getD 0 (0, 0) = seed ∧
    (imagination_rollout_v2 m actor noise seed horizon).2.getD 0 0 = 0 ∧
    (imagination_rollout_v2 m actor noise seed horizon).2.getD i 0 =
      actor ((imagination_rollout_v2 m actor noise seed horizon).1.getD (i - 1) (0, 0)) ∧
    (p2e_rollout m actor noise seed horizon).1.length = horizon ∧
    (p2e_rollout m actor noise seed horizon).2.length = horizon ∧
    (p2e_rollout m actor noise seed horizon).2.getD j 0 = 0 := by
  refine ⟨?_, ?_, rfl, rfl, ?_, p2eLoop_traj_length _ _ _ _ _ _ _, ?_, ?_⟩
  · simp only [imagination_rollout_v2, List.length_cons]
    rw [(imagineStepsV2_length m actor noise horizon 1 seed).1]
  · simp only [imagination_rollout_v2, List.length_cons]
    rw [(imagineStepsV2_length m actor noise horizon 1 seed).2]
  · obtain ⟨i2, rfl⟩ : ∃ i2, i = i2 + 1 := ⟨i - 1, by omega⟩
    have hlt : i2 < horizon := by omega
    have := imagineStepsV2_actions m actor noise horizon 1 seed i2 hlt
    simpa [imagination_rollout_v2] using this
  · rw [p2e_rollout, p2eLoop_acts_length]
    exact List.length_replicate horizon 0
  · obtain ⟨j2, rfl⟩ : ∃ j2, j = j2 + 1 := ⟨j - 1, by omega⟩
    rw [p2e_rollout, p2eLoop_acts_getD]
    exact getD_replicate_zero horizon (j2 + 1)

/-- Witness for C5 (amended): the shape theorem at horizon `3`, action index
`2`, buffer index `1`. -/
theorem imagination_rollout_shape_witness :
    1 ≤ 2 ∧ 2 ≤ 3 ∧ 1 ≤ 1 ∧
    ((imagination_rollout_v2 zeroStdModel (fun st => st.1 + st.2) (fun i => (i : ℚ))
        (1, 2) 3).1.length = 3 + 1 ∧
    (imagination_rollout_v2 zeroStdModel (fun st => st.1 + st.2) (fun i => (i : ℚ))
        (1, 2) 3).2.length = 3 + 1 ∧
    (imagination_rollout_v2 zeroStdModel (fun st => st.1 + st.2) (fun i => (i : ℚ))
        (1, 2) 3).1.getD 0 (0, 0) = (1, 2) ∧
    (imagination_rollout_v2 zeroStdModel (fun st => st.1 + st.2) (fun i => (i : ℚ))
        (1, 2) 3).2.getD 0 0 = 0 ∧
    (imagination_rollout_v2 zeroStdModel (fun st => st.1 + st.2) (fun i => (i : ℚ))
        (1, 2) 3).2.getD 2 0 =
      (fun st : ℚ × ℚ => st.1 + st.2)
        ((imagination_rollout_v2 zeroStdModel (fun st => st.1 + st.2) (fun i => (i : ℚ))
          (1, 2) 3).1.getD (2 - 1) (0, 0)) ∧
    (p2e_rollout zeroStdModel (fun st => st.1 + st.2) (fun i => (i : ℚ))
        (1, 2) 3).1.length = 3 ∧
    (p2e_rollout zeroStdModel (fun st => st.1 + st.2) (fun i => (i : ℚ))
        (1, 2) 3).2.length = 3 ∧
    (p2e_rollout zeroStdModel (fun st => st.1 + st.2) (fun i => (i : ℚ))
        (1, 2) 3).2.getD 1 0 = 0) :=
  ⟨by omega, by omega, by omega,
    imagination_rollout_shape zeroStdModel (fun st => st.1 + st.2) (fun i => (i : ℚ))
      (1, 2) 3 2 1 (by omega) (by omega) (by omega)⟩

/-! ## Imagination uses no posterior and no early termination -/

/-- The DreamerV1/V2 world model wrapper (`dreamer_v1/agent.py` lines
175-199): the RSSM together with the reward and continue predictors. -/
structure WorldModelW where
  rssm : RSSMv1
  reward_model : ℚ × ℚ → ℚ
  continue_model : ℚ × ℚ → ℚ

/-- The behaviour-learning imagination phase of `dreamer_v2.py` lines
234-276: the rollout driven by the world model's RSSM.  Rewards and
continuation probabilities are predicted only after the loop (lines
278-288). -/
def train_imagination (wm : WorldModelW) (actor : ℚ × ℚ → ℚ) (noise : ℕ → ℚ)
    (seed : ℚ × ℚ) (horizon : ℕ) : List (ℚ × ℚ) × List ℚ :=
  imagination_rollout_v2 wm.rssm actor noise seed horizon

theorem imagination_congr (m1 m2 : RSSMv1)
    (h1 : m1.recurrent_model = m2.recurrent_model)
    (h2 : m1.transition_model = m2.transition_model)
    (h3 : m1.min_std = m2.min_std) :
    m1.imagination = m2.imagination := by
  funext s r a w
  simp [RSSMv1.imagination, RSSMv1.transition, compute_stochastic_state, h1, h2, h3]

theorem imagineStepsV2_congr (m1 m2 : RSSMv1) (actor : ℚ × ℚ → ℚ) (noise : ℕ → ℚ)
    (h1 : m1.recurrent_model = m2.recurrent_model)
    (h2 : m1.transition_model = m2.transition_model)
    (h3 : m1.min_std = m2.min_std) :
    ∀ (n i : ℕ) (st : ℚ × ℚ),
      imagineStepsV2 m1 actor noise n i st = imagineStepsV2 m2 actor noise n i st := by
  have him := imagination_congr m1 m2 h1 h2 h3
  intro n
  induction n with
  | zero => intro i st; rfl
  | succ n ih =>
    intro i st
    simp only [imagineStepsV2, him, ih]

/-- C6: an imagination rollout never invokes the Posterior Estimator
(replacing the representation model changes nothing), never consults the
continuation predictor (replacing the continue model changes nothing), and
always produces exactly `horizon + 1` latent states — it never terminates
early on a predicted done. -/
theorem imagination_no_posterior_fixed_horizon
    (wm : WorldModelW) (f : ℚ → ℚ → ℚ × ℚ) (g : ℚ × ℚ → ℚ)
    (actor : ℚ × ℚ → ℚ) (noise : ℕ → ℚ) (seed : ℚ × ℚ) (horizon : ℕ) :
    train_imagination
        ⟨⟨wm.rssm.recurrent_model, f, wm.rssm.transition_model, wm.rssm.min_std⟩,
          wm.reward_model, g⟩ actor noise seed horizon =
      train_imagination wm actor noise seed horizon ∧
    (train_imagination wm actor noise seed horizon).1.length = horizon + 1 := by
  constructor
  · simp only [train_imagination, imagination_rollout_v2]
    rw [imagineStepsV2_congr
      ⟨wm.rssm.recurrent_model, f, wm.rssm.transition_model, wm.rssm.min_std⟩
      wm.rssm actor noise rfl rfl rfl]
  · simp only [train_imagination, imagination_rollout_v2, List.length_cons]
    rw [(imagineStepsV2_length wm.rssm actor noise horizon 1 seed).1]

/-! ## Entropy fallback

`dreamer_v2/dreamer_v2.py` lines 340-344: the entropy bonus is
`args.actor_ent_coef * torch.stack([p.entropy() for p in policies], -1).sum(dim=-1)`;
if any `p.entropy()` raises `NotImplementedError` the bonus is replaced by
zeros.  A distribution without a closed-form entropy is modelled by
`entropy = none`. -/

/-- An action distribution, abstracted to the only capability the entropy
bonus uses: `entropy` is `some e` when the family implements a closed-form
entropy `e` and `none` when calling it raises `NotImplementedError`. -/
structure ActionDist where
  entropy : Option ℚ

/-- Summing the per-distribution entropies, propagating the missing-entropy
exception: `none` as soon as any distribution lacks an entropy. -/
def entropySum : List ActionDist → Option ℚ
  | [] => some 0
  | p :: ps =>
    match p.entropy, entropySum ps with
    | some e, some s => some (e + s)
    | _, _ => none

/-- The entropy bonus of `dreamer_v2.py` lines 340-344: the coefficient times
the summed entropies, or zero when the computation raises
`NotImplementedError`. -/
def entropyBonus (coef : ℚ) (policies : List ActionDist) : ℚ :=
  match entropySum policies with
  | some s => coef * s
  | none => 0

theorem entropySum_of_none :
    ∀ (ps : List ActionDist) (p : ActionDist), p ∈ ps → p.entropy = none →
      entropySum ps = none := by
  intro ps
  induction ps with
  | nil => intro p hp _; simp at hp
  | cons q qs ih =>
    intro p hp hnone
    rcases List.mem_cons.mp hp with h | h
    · subst h
      simp only [entropySum, hnone]
    · rw [entropySum, ih p h hnone]
      cases q.entropy <;> rfl

theorem entropySum_of_all :
    ∀ ps : List ActionDist, (∀ q ∈ ps, q.entropy ≠ none) →
      entropySum ps = some ((ps.map fun q => q.entropy.getD 0).sum) := by
  intro ps
  induction ps with
  | nil => intro _; rfl
  | cons q qs ih =>
    intro h
    obtain ⟨e, he⟩ := Option.ne_none_iff_exists.mp (h q (List.mem_cons_self q qs))
    rw [entropySum, ih fun r hr => h r (List.mem_cons_of_mem q hr), ← he]
    simp [he.symm]

/-- C7: if any configured action distribution lacks a closed-form entropy the
training step substitutes a zero entropy bonus instead of propagating the
exception; when every distribution implements entropy, the bonus is the
configured coefficient times the summed entropies. -/
theorem entropy_bonus_fallback
    (coef : ℚ) (ps qs : List ActionDist) (p : ActionDist)
    (hp : p ∈ ps) (hnone : p.entropy = none)
    (hall : ∀ q ∈ qs, q.entropy ≠ none) :
    entropyBonus coef ps = 0 ∧
    entropyBonus coef qs = coef * (qs.map fun q => q.entropy.getD 0).sum := by
  constructor
  · rw [entropyBonus, entropySum_of_none ps p hp hnone]
  · rw [entropyBonus, entropySum_of_all qs hall]

/-- Witness for C7: the fallback theorem applied to one list with a missing
entropy and one list where all entropies exist. -/
theorem entropy_bonus_fallback_witness :
    (⟨none⟩ : ActionDist) ∈ [⟨some 3⟩, (⟨none⟩ : ActionDist)] ∧
    (⟨none⟩ : ActionDist).entropy = none ∧
    (∀ q ∈ [(⟨some 3⟩ : ActionDist), ⟨some 4⟩], q.entropy ≠ none) ∧
    (entropyBonus 2 [⟨some 3⟩, ⟨none⟩] = 0 ∧
    entropyBonus 2 [⟨some 3⟩, ⟨some 4⟩] =
      2 * (([(⟨some 3⟩ : ActionDist), ⟨some 4⟩]).map fun q => q.entropy.getD 0).sum) :=
  ⟨by simp, rfl, by simp,
    entropy_bonus_fallback 2 [⟨some 3⟩, ⟨none⟩] [⟨some 3⟩, ⟨some 4⟩] ⟨none⟩
      (by simp) rfl (by simp)⟩

/-! ## Construction-time configuration validation

`build_models` (`dreamer_v1/agent.py` lines 353-370) validates
`cnn_channels_multiplier > 0`, `dense_units > 0` and that `cnn_act` and
`dense_act` name existing activations; it performs no check on
`stochastic_size`, `recurrent_state_size`, `lmbda` or any KL-balancing
`alpha`. -/

/-- The configuration fields of `DreamerV1Args` that `build_models` receives
(the subset relevant to construction-time validation). -/
structure DreamerV1Args where
  cnn_channels_multiplier : Int
  dense_units : Int
  cnn_act : String
  dense_act : String
  stochastic_size : Int
  recurrent_state_size : Int
  lmbda : ℚ

/-- The validation performed by `build_models` (`dreamer_v1/agent.py` lines
353-370): reject non-positive `cnn_channels_multiplier` and `dense_units`
and activation names not found in the `torch.nn` namespace (modelled by the
list `nn`), in source order; everything else is accepted. -/
def build_models_check (nn : List String) (args : DreamerV1Args) : Except String Unit :=
  if args.cnn_channels_multiplier ≤ 0 then
    Except.error ("cnn_channels_multiplier must be greater than zero")
  else if args.dense_units ≤ 0 then
    Except.error ("dense_units must be greater than zero")
  else if args.cnn_act ∈ nn then
    if args.dense_act ∈ nn then Except.ok ()
    else Except.error ("Invalid value for dense_act")
  else Except.error ("Invalid value for cnn_act")

/-- `args` with the state size and `lmbda` replaced — used to state that the
construction-time validation never consults them. -/
def withSizeLmbda (args : DreamerV1Args) (s : Int) (l : ℚ) : DreamerV1Args :=
  ⟨args.cnn_channels_multiplier, args.dense_units, args.cnn_act, args.dense_act,
    s, args.recurrent_state_size, l⟩

/-- A configuration with a non-positive state size (`stochastic_size = 0`)
and `lmbda = 2` outside `[0, 1]`, but valid in every field that
`build_models` checks. -/
def argsBad : DreamerV1Args := ⟨1, 8, "ELU", "ELU", 0, 200, 2⟩

/-- Counterexample to C8: a configuration whose `stochastic_size` is
non-positive and whose `lmbda` lies outside `[0, 1]` passes `build_models`
construction-time validation unrejected. -/
theorem config_validation_counterexample :
    build_models_check ["ELU", "Tanh"] argsBad = Except.ok () ∧
    argsBad.stochastic_size ≤ 0 ∧ 1 < argsBad.lmbda := by
  refine ⟨?_, by norm_num [argsBad], by norm_num [argsBad]⟩
  rfl

/-- C8 amended: `build_models` rejects, at construction time and with a
descriptive message, a non-positive `cnn_channels_multiplier` or
`dense_units` and an invalid `cnn_act` or `dense_act` selection — these four
checks are exactly the accepted/rejected boundary — but it never consults
the state sizes or `lmbda` (or any `alpha`), so configurations invalid in
those fields are accepted unchanged. -/
theorem config_validation_amended
    (nn : List String) (args : DreamerV1Args) (s : Int) (l : ℚ)
    (hm : args.cnn_channels_multiplier ≤ 0) :
    build_models_check nn (withSizeLmbda args s l) = build_models_check nn args ∧
    (∀ a2 : DreamerV1Args, (build_models_check nn a2 = Except.ok () ↔
      (0 < a2.cnn_channels_multiplier ∧ 0 < a2.dense_units ∧
        a2.cnn_act ∈ nn ∧ a2.dense_act ∈ nn))) ∧
    build_models_check nn args =
      Except.error ("cnn_channels_multiplier must be greater than zero") := by
  refine ⟨?_, ?_, ?_⟩
  · simp only [build_models_check, withSizeLmbda]
  · intro a2
    constructor
    · intro h
      rw [build_models_check] at h
      split_ifs at h with h1 h2 h3 h4
      exact ⟨by omega, by omega, h3, h4⟩
    · rintro ⟨h1, h2, h3, h4⟩
      rw [build_models_check, if_neg (by omega), if_neg (by omega), if_pos h3, if_pos h4]
  · rw [build_models_check, if_pos hm]

/-- Witness for C8 (amended): the validation theorem applied to the
concrete invalid-but-accepted configuration with its multiplier zeroed. -/
theorem config_validation_amended_witness :
    (⟨0, 8, "ELU", "ELU", 0, 200, 2⟩ : DreamerV1Args).cnn_channels_multiplier ≤ 0 ∧
    (build_models_check ["ELU"] (withSizeLmbda ⟨0, 8, "ELU", "ELU", 0, 200, 2⟩ 5 (1/2)) =
      build_models_check ["ELU"] ⟨0, 8, "ELU", "ELU", 0, 200, 2⟩ ∧
    (∀ a2 : DreamerV1Args, (build_models_check ["ELU"] a2 = Except.ok () ↔
      (0 < a2.cnn_channels_multiplier ∧ 0 < a2.dense_units ∧
        a2.cnn_act ∈ ["ELU"] ∧ a2.dense_act ∈ ["ELU"]))) ∧
    build_models_check ["ELU"] ⟨0, 8, "ELU", "ELU", 0, 200, 2⟩ =
      Except.error ("cnn_channels_multiplier must be greater than zero")) :=
  ⟨by norm_num,
    config_validation_amended ["ELU"] ⟨0, 8, "ELU", "ELU", 0, 200, 2⟩ 5 (1/2) (by norm_num)⟩

/-! ## Player state reset

`PlayerDV1.init_states` (`dreamer_v1/agent.py` lines 244-259): resetting
`None` or an empty index collection zeroes the whole stored action,
recurrent and stochastic tensors; a non-empty collection zeroes exactly the
listed environment columns. -/

/-- The per-environment mutable state of `PlayerDV1`: stored last actions,
recurrent state and stochastic state, indexed by environment. -/
structure PlayerState where
  actions : ℕ → ℚ
  recurrent_state : ℕ → ℚ
  stochastic_state : ℕ → ℚ

/-- `PlayerDV1.init_states` (`dreamer_v1/agent.py` lines 244-259): if
`reset_envs` is `None` or empty, all three state tensors become zero;
otherwise the columns listed in `reset_envs` are zeroed and all others keep
their values. -/
def init_states (s : PlayerState) (reset_envs : Option (List ℕ)) : PlayerState :=
  match reset_envs with
  | none => ⟨fun _ => 0, fun _ => 0, fun _ => 0⟩
  | some l =>
    if l.isEmpty then ⟨fun _ => 0, fun _ => 0, fun _ => 0⟩
    else
      ⟨fun i => if i ∈ l then 0 else s.actions i,
       fun i => if i ∈ l then 0 else s.recurrent_state i,
       fun i => if i ∈ l then 0 else s.stochastic_state i⟩

/-- C9: resetting a non-empty subset of environment indices zeroes the stored
action, recurrent and stochastic state at exactly those indices, leaves every
other index untouched, and resetting with `None` or the empty subset zeroes
the state of every environment. -/
theorem init_states_reset
    (s : PlayerState) (l : List ℕ) (i j k : ℕ)
    (hi : i ∈ l) (hj : j ∉ l) :
    (init_states s (some l)).actions i = 0 ∧
    (init_states s (some l)).recurrent_state i = 0 ∧
    (init_states s (some l)).stochastic_state i = 0 ∧
    (init_states s (some l)).actions j = s.actions j ∧
    (init_states s (some l)).recurrent_state j = s.recurrent_state j ∧
    (init_states s (some l)).stochastic_state j = s.stochastic_state j ∧
    (init_states s none).actions k = 0 ∧
    (init_states s none).recurrent_state k = 0 ∧
    (init_states s none).stochastic_state k = 0 ∧
    (init_states s (some [])).actions k = 0 ∧
    (init_states s (some [])).recurrent_state k = 0 ∧
    (init_states s (some [])).stochastic_state k = 0 := by
  have hne : l.isEmpty = false := by
    cases l with
    | nil => exact absurd hi (by simp)
    | cons x xs => rfl
  refine ⟨?_, ?_, ?_, ?_, ?_, ?_, rfl, rfl, rfl, rfl, rfl, rfl⟩ <;>
    simp [init_states, hne, hi, hj]

/-- Witness for C9: the reset theorem on a concrete player state with
`reset_envs = [0, 2]`, checking index `2` (reset) and index `1` (kept). -/
theorem init_states_reset_witness :
    2 ∈ [0, 2] ∧ 1 ∉ ([0, 2] : List ℕ) ∧
    ((init_states ⟨fun i => i + 1, fun i => 2 * i, fun i => 3 * i⟩ (some [0, 2])).actions 2 = 0 ∧
    (init_states ⟨fun i => i + 1, fun i => 2 * i, fun i => 3 * i⟩
      (some [0, 2])).recurrent_state 2 = 0 ∧
    (init_states ⟨fun i => i + 1, fun i => 2 * i, fun i => 3 * i⟩
      (some [0, 2])).stochastic_state 2 = 0 ∧
    (init_states ⟨fun i => i + 1, fun i => 2 * i, fun i => 3 * i⟩ (some [0, 2])).actions 1 =
      (fun i : ℕ => (i : ℚ) + 1) 1 ∧
    (init_states ⟨fun i => i + 1, fun i => 2 * i, fun i => 3 * i⟩
      (some [0, 2])).recurrent_state 1 = (fun i : ℕ => 2 * (i : ℚ)) 1 ∧
    (init_states ⟨fun i => i + 1, fun i => 2 * i, fun i => 3 * i⟩
      (some [0, 2])).stochastic_state 1 = (fun i : ℕ => 3 * (i : ℚ)) 1 ∧
    (init_states ⟨fun i => i + 1, fun i => 2 * i, fun i => 3 * i⟩ none).actions 7 = 0 ∧
    (init_states ⟨fun i => i + 1, fun i => 2 * i, fun i => 3 * i⟩ none).recurrent_state 7 = 0 ∧
    (init_states ⟨fun i => i + 1, fun i => 2 * i, fun i => 3 * i⟩ none).stochastic_state 7 = 0 ∧
    (init_states ⟨fun i => i + 1, fun i => 2 * i, fun i => 3 * i⟩ (some [])).actions 7 = 0 ∧
    (init_states ⟨fun i => i + 1, fun i => 2 * i, fun i => 3 * i⟩
      (some [])).recurrent_state 7 = 0 ∧
    (init_states ⟨fun i => i + 1, fun i => 2 * i, fun i => 3 * i⟩
      (some [])).stochastic_state 7 = 0) :=
  ⟨by simp, by simp,
    init_states_reset ⟨fun i => i + 1, fun i => 2 * i, fun i => 3 * i⟩ [0, 2] 2 1 7
      (by simp) (by simp)⟩

/-! ## Forced episode boundary at the start of a training window

`dreamer_v2/dreamer_v2.py` lines 128-130:
`data["is_first"][0, :] = torch.tensor([1.0], ...).expand_as(...)` —
the first timestep of every sequence in the batch is marked as an episode
start before dynamic learning. -/

/-- The `is_first` override of `dreamer_v2.py` lines 128-130: entry
`(0, b)` becomes `1` for every batch element `b`; all other entries keep the
replay-buffer value. -/
def override_is_first (is_first : ℕ → ℕ → ℚ) : ℕ → ℕ → ℚ :=
  fun t b => if t = 0 then 1 else is_first t b

/-- C10: at the start of every training call the `is_first` flag of the
first timestep is overwritten to `1` for every batch element, regardless of
the stored replay value, and the flags of all later timesteps are left
unchanged. -/
theorem is_first_override (d : ℕ → ℕ → ℚ) (t b b2 : ℕ) (ht : t ≠ 0) :
    override_is_first d 0 b = 1 ∧ override_is_first d t b2 = d t b2 := by
  constructor
  · rfl
  · simp [override_is_first, ht]

/-- Witness for C10: the override theorem on a stored flag pattern that is
zero everywhere. -/
theorem is_first_override_witness :
    (3 : ℕ) ≠ 0 ∧
    (override_is_first (fun _ _ => 0) 0 5 = 1 ∧
      override_is_first (fun _ _ => 0) 3 4 = (fun _ _ => (0 : ℚ)) 3 4) :=
  ⟨by omega, is_first_override (fun _ _ => 0) 3 5 4 (by omega)⟩

end SheepRL
